import Mathlib

/-!
# WebServerControlLed: a shallow embedding and its verified properties

The program under study (`WebServerControlLed.cpp`) is a single-threaded HTTP
server that mirrors one integer, `button_pressed`, onto a GPIO line through a
small RAII class, `LedController`.

Modelling conventions.

* A `std::string` is a list of characters (`CppString`); every literal of the
  program is ASCII, so characters and bytes coincide.
* The C `int` variables hold only the values the program stores in them; no
  arithmetic is performed on them, so they are modelled as `Int`.
* Calls that leave the process (socket and libgpiod calls) are recorded, in
  program order, in a trace of `Event`s.  Their outcomes are inputs of the
  model: a return code for `gpiod_line_set_value`, a success flag for the
  socket operations, the pointer returned by the libgpiod lookups.
* A C++ exception is modelled by the flag `thrown` of the result records.
* Writes to `std::cout` / `std::cerr` are not part of the model.
-/

namespace WebServerControlLed

/-! ## Strings -/

/-- A `std::string`, as its sequence of characters. -/
abbrev CppString := List Char

/-- The function `std::isspace` in the classic "C" locale, which is the one
`operator>>` consults: space, `\t`, `\n`, `\v`, `\f`, `\r`. -/
def isspace (c : Char) : Bool :=
  c == ' ' || c == '\t' || c == '\n' || c == '\x0b' || c == '\x0c' || c == '\r'

/-- The member `std::string::find(str)` with the default start position: the
lowest index at which `str` occurs in `s`; `none` stands for `npos`. -/
def find (s str : CppString) : Option Nat :=
  if str.isPrefixOf s then some 0
  else
    match s with
    | [] => none
    | _ :: t => (find t str).map (· + 1)

/-- The member `std::string::substr(pos)`: the characters from `pos` on;
`none` stands for the `std::out_of_range` thrown when `pos > size()`. -/
def substr (s : CppString) (pos : Nat) : Option CppString :=
  if pos > s.length then none else some (s.drop pos)

/-- The overload `std::to_string(int)`: decimal digits, with a leading `-`
for a negative value. -/
def to_string (n : Int) : CppString := (toString n).toList

/-- The overload `std::to_string(size_t)`. -/
def to_string_size (n : Nat) : CppString := (toString n).toList

/-! ## `std::istringstream` and `operator>>` -/

/-- A `std::istringstream`: the characters not yet consumed and the failbit. -/
structure istringstream where
  buf : CppString
  failbit : Bool
deriving DecidableEq

/-- The extraction `stream >> str` into a `std::string`.  On a failed stream
nothing happens and `str` keeps its value.  Otherwise `str` is erased, leading
whitespace is skipped and characters are moved to `str` up to the next
whitespace or the end of the buffer; extracting no character sets the
failbit. -/
def istringstream.extract (st : istringstream) (str : CppString) :
    istringstream × CppString :=
  if st.failbit then (st, str)
  else
    let rest := st.buf.dropWhile isspace
    let tok := rest.takeWhile (fun c => !isspace c)
    (⟨rest.dropWhile (fun c => !isspace c), tok.isEmpty⟩, tok)

/-- The three strings `method`, `path`, `protocol` of `main`. -/
structure RequestLine where
  method : CppString
  path : CppString
  protocol : CppString
deriving DecidableEq

/-- The statements
`std::istringstream request_stream(request_line); string method, path, protocol;`
`request_stream >> method >> path >> protocol;` of `main`. -/
def parseRequestLine (request_line : CppString) : RequestLine :=
  let s0 : istringstream := ⟨request_line, false⟩
  let r1 := s0.extract []
  let r2 := r1.1.extract []
  let r3 := r2.1.extract []
  ⟨r1.2, r2.2, r3.2⟩

/-! ## Events -/

/-- A libgpiod handle (`gpiod_chip*` or `gpiod_line*`) that is not null. -/
abbrev Handle := Nat

/-- The calls through which the program acts on the outside world.  A pointer
argument is `none` when it is null. -/
inductive Event where
  | accept
  | read_
  | send_ (message : CppString)
  | gpiod_chip_open_by_name (name : CppString)
  | gpiod_chip_get_line (chip : Option Handle) (offset : Int)
  | gpiod_line_request_output (line : Option Handle) (consumer : CppString) (default_val : Int)
  | gpiod_line_set_value (line : Option Handle) (value : Int)
  | gpiod_line_release (line : Option Handle)
  | gpiod_chip_close (chip : Option Handle)
deriving DecidableEq

/-! ## `LedController` -/

/-- The macro `LED_PIN`. -/
def LED_PIN : Int := 22

/-- The macro `CONSUMER_NAME`. -/
def CONSUMER_NAME : CppString := "WebServeLedPin".toList

/-- The data members of `class LedController`.  The two `std::unique_ptr`
members are modelled by the pointer they own (`none` when null); their
deleters are `gpiod_chip_close` and `gpiod_line_release`. -/
structure LedController where
  pin_ : Int
  consumer_name_ : CppString
  chip_ : Option Handle
  line_ : Option Handle
  cleaned_up_ : Bool
deriving DecidableEq

/-- The result of calling a member function: the object afterwards, the calls
issued, and whether the function was left by an exception. -/
structure Call where
  self : LedController
  trace : List Event
  thrown : Bool
deriving DecidableEq

/-- The member `LedController::setLineValue(value)`; `ret` is what
`gpiod_line_set_value` returns. -/
def LedController.setLineValue (c : LedController) (value : Int) (ret : Int) : Call :=
  ⟨c, [.gpiod_line_set_value c.line_ value], decide (ret < 0)⟩

/-- The member `LedController::SetLedStatus(val)`. -/
def LedController.SetLedStatus (c : LedController) (val : Int) (ret : Int) : Call :=
  c.setLineValue val ret

/-- The member `LedController::cleanup()`; `ret` is what the
`gpiod_line_set_value` call returns, should it be issued.  The two release
functions return `void`.  Neither `line_` nor `chip_` is reset. -/
def LedController.cleanup (c : LedController) (ret : Int) : Call :=
  if !c.cleaned_up_ then
    let r1 : Call :=
      if c.line_.isSome then
        let r := c.setLineValue 0 ret
        if r.thrown then r
        else ⟨c, r.trace ++ [.gpiod_line_release c.line_], false⟩
      else ⟨c, [], false⟩
    if r1.thrown then r1
    else
      let t2 : List Event := if c.chip_.isSome then [.gpiod_chip_close c.chip_] else []
      ⟨{ c with cleaned_up_ := true }, r1.trace ++ t2, false⟩
  else ⟨c, [], false⟩

/-- The destruction of the members `line_` and `chip_`, in this order (the
reverse of their declaration): a `std::unique_ptr` that is not null passes its
pointer to its deleter. -/
def LedController.destroyMembers (c : LedController) : List Event :=
  (if c.line_.isSome then [Event.gpiod_line_release c.line_] else []) ++
  (if c.chip_.isSome then [Event.gpiod_chip_close c.chip_] else [])

/-- The constructor `LedController(pin, consumer_name)`.  The inputs `chip` and
`line` are the pointers returned by `gpiod_chip_open_by_name` and
`gpiod_chip_get_line`, and `req` is the return code of
`gpiod_line_request_output`.  When the constructor throws, the members already
constructed are destroyed and no object exists (`none`). -/
def LedController.new (pin : Int) (consumer_name : CppString)
    (chip line : Option Handle) (req : Int) : Option LedController × List Event :=
  let c0 : LedController := ⟨pin, consumer_name, chip, none, false⟩
  let t0 : List Event := [.gpiod_chip_open_by_name "gpiochip0".toList]
  if !c0.chip_.isSome then (none, t0 ++ c0.destroyMembers)
  else
    -- getLine()
    let c1 : LedController := { c0 with line_ := line }
    let t1 := t0 ++ [.gpiod_chip_get_line c0.chip_ c0.pin_]
    if !c1.line_.isSome then (none, t1 ++ c1.destroyMembers)
    else
      -- requestLine()
      let t2 := t1 ++ [.gpiod_line_request_output c1.line_ c1.consumer_name_ 0]
      if req < 0 then (none, t2 ++ c1.destroyMembers)
      else (some c1, t2)

/-- The end of an object: the body of `~LedController()`, then the destruction
of the members.  A destructor is `noexcept`: an exception leaving its body
ends the process through `std::terminate` (`thrown`) before any member is
destroyed. -/
def LedController.destroy (c : LedController) (ret : Int) : Call :=
  let r : Call := if !c.cleaned_up_ then c.cleanup ret else ⟨c, [], false⟩
  if r.thrown then r
  else ⟨r.self, r.trace ++ r.self.destroyMembers, false⟩

/-- The function `signalHandler(sig)`: `cleanup()` on the global
`ledController` when it is set, then `std::exit(0)`, which destroys the
objects of static storage duration, the global `ledController` among them.
`ret` is the return code of the `gpiod_line_set_value` call of `cleanup()`. -/
def signalHandler (ledController : Option LedController) (ret : Int) : List Event × Bool :=
  match ledController with
  | none => ([], false)
  | some c =>
    let r := c.cleanup ret
    if r.thrown then (r.trace, true)
    else
      let d := r.self.destroy ret
      (r.trace ++ d.trace, d.thrown)

/-! ## The control loop of `main` -/

/-- The literal `"/send?message="`. -/
def sendMessageLit : CppString := "/send?message=".toList

/-- The raw string literal `html_response`: status line, headers and the
control page, with the line breaks and the indentation of the source. -/
def html_response : CppString :=
  String.toList (String.join [
    "HTTP/1.1 200 OK\n",
    "                    Content-Type: text/html\n",
    "                    Connection: close\n",
    "\n",
    "                    <!DOCTYPE html>\n",
    "                    <html lang=\"en\">\n",
    "                    <head>\n",
    "                        <meta charset=\"UTF-8\">\n",
    "                        <meta name=\"viewport\" content=\"width=device-width, initial-scale=1.0\">\n",
    "                        <title>Ehab RPI Control</title>\n",
    "                        <style>\n",
    "                            body \x7b font-family: Arial, sans-serif; text-align: center; background-color: #f4f4f4; margin: 0; padding: 0; \x7d\n",
    "                            .container \x7b width: 50%; margin: auto; background: white; padding: 20px; margin-top: 50px; box-shadow: 0px 0px 10px rgba(0, 0, 0, 0.1); border-radius: 8px; \x7d\n",
    "                            h1 \x7b color: #333; \x7d\n",
    "                            p \x7b font-size: 18px; color: #555; \x7d\n",
    "                            button \x7b padding: 10px 20px; font-size: 18px; color: white; border: none; border-radius: 5px; cursor: pointer; margin: 10px; \x7d\n",
    "                            .on \x7b background-color: #28a745; \x7d\n",
    "                            .off \x7b background-color: #dc3545; \x7d\n",
    "                            button:hover \x7b opacity: 0.8; \x7d\n",
    "                        </style>\n",
    "                    </head>\n",
    "                    <body>\n",
    "                        <div class=\"container\">\n",
    "                            <h1>Raspberry Pi</h1>\n",
    "                            <p>Control LED</p>\n",
    "                            <button class=\"on\" onclick=\"sendMessage(\x27on\x27)\">ON</button>\n",
    "                            <button class=\"off\" onclick=\"sendMessage(\x27off\x27)\">OFF</button>\n",
    "                            <p id=\"response\"></p>\n",
    "                        </div>\n",
    "                        <script>\n",
    "                            function sendMessage(value) \x7b\n",
    "                                fetch(\"/send?message=\" + value)\n",
    "                                .then(response => response.text())\n",
    "                                .then(data => \x7b\n",
    "                                    document.getElementById(\"response\").innerText = \"Server Response: \" + data;\n",
    "                                \x7d)\n",
    "                                .catch(error => console.error(\"Error:\", error));\n",
    "                            \x7d\n",
    "                        </script>\n",
    "                    </body>\n",
    "                    </html>\n",
    "                    "
  ])

/-- The initializer of the global `int button_pressed = 0;`. -/
def button_pressed_init : Int := 0

/-- The expression building `response` from `response_body`. -/
def plainResponse (response_body : CppString) : CppString :=
  "HTTP/1.1 200 OK\r\nContent-Type: text/plain\r\nContent-Length: ".toList ++
    to_string_size response_body.length ++
    "\r\nConnection: close\r\n\r\n".toList ++
    response_body

/-- What the outside world does during one pass of the loop: whether
`acceptor_.accept` succeeds, the string `read_` returns (`none` when
`read_until` throws), whether `boost::asio::write` succeeds, and the return
code of `gpiod_line_set_value`. -/
structure Conn where
  accept_ok : Bool
  request_line : Option CppString
  write_ok : Bool
  set_value_ret : Int
deriving DecidableEq

/-- A connection on which nothing fails and whose first line is `line`. -/
def Conn.ok (line : CppString) : Conn := ⟨true, some line, true, 0⟩

/-- The result of a pass of the loop (or of a run of passes): the global
`button_pressed`, the calls issued, and whether an exception was thrown. -/
structure Iter where
  button_pressed : Int
  trace : List Event
  thrown : Bool
deriving DecidableEq

/-- The tail of the loop body shared by both branches: `send_(socket_, msg)`
and then `ledController->SetLedStatus(button_pressed)`. -/
def respond (led : LedController) (button_pressed : Int) (io : Conn)
    (pre : List Event) (msg : CppString) : Iter :=
  if !io.write_ok then ⟨button_pressed, pre ++ [.send_ msg], true⟩
  else
    let r := led.SetLedStatus button_pressed io.set_value_ret
    ⟨button_pressed, pre ++ [.send_ msg] ++ r.trace, r.thrown⟩

/-- One pass of the body of `while (true)` in `main`, started with the global
`button_pressed` at the given value. -/
def loopBody (led : LedController) (button_pressed : Int) (io : Conn) : Iter :=
  if !io.accept_ok then ⟨button_pressed, [.accept], true⟩
  else
    match io.request_line with
    | none => ⟨button_pressed, [.accept, .read_], true⟩
    | some request_line =>
      let req := parseRequestLine request_line
      if find req.path sendMessageLit == some 0 then
        match substr req.path sendMessageLit.length with
        | none => ⟨button_pressed, [.accept, .read_], true⟩
        | some msg_value =>
          let button_pressed :=
            if msg_value == "on".toList then 1
            else if msg_value == "off".toList then 0
            else button_pressed
          let response_body := "button_pressed=".toList ++ to_string button_pressed
          respond led button_pressed io [.accept, .read_] (plainResponse response_body)
      else
        respond led button_pressed io [.accept, .read_] html_response

/-- The loop `while (true)` of `main`, run against the connections `ios` in
turn.  The `try` block encloses the whole loop, so an exception thrown by a
pass leaves the loop for the `catch` clause, after which `main` returns 0;
this is the only way out of the loop and is reported by `thrown`.  When the
connections are used up the loop is waiting in `accept`. -/
def whileLoop (led : LedController) : Int → List Conn → Iter
  | button_pressed, [] => ⟨button_pressed, [], false⟩
  | button_pressed, io :: ios =>
    let r := loopBody led button_pressed io
    if r.thrown then r
    else
      let r' := whileLoop led r.button_pressed ios
      ⟨r'.button_pressed, r.trace ++ r'.trace, r'.thrown⟩

/-- The calls of successive `SetLedStatus(v)` calls, one for each value of
`vals`, each accepted by the hardware. -/
def setLedStatusAll (c : LedController) : List Int → List Event
  | [] => []
  | v :: vs => (c.SetLedStatus v 0).trace ++ setLedStatusAll c vs

/-- The calls over the life of the controller of `main` when no hardware call
fails and the lookups return `chip` and `line`: the construction, the
`SetLedStatus` calls, and the teardown.  With `sigint` the teardown is
`signalHandler` (explicit `cleanup()`, then `std::exit`); without it, it is
the destruction of the global `ledController` after `main` has returned. -/
def lifetime (chip line : Handle) (vals : List Int) (sigint : Bool) : List Event :=
  match LedController.new LED_PIN CONSUMER_NAME (some chip) (some line) 0 with
  | (none, t) => t
  | (some c, t) =>
    t ++ setLedStatusAll c vals ++
      (if sigint then (signalHandler (some c) 0).1 else (c.destroy 0).trace)

/-! ## Observations on traces -/

/-- The messages passed to `send_`, in order. -/
def sent : List Event → List CppString
  | [] => []
  | .send_ m :: t => m :: sent t
  | _ :: t => sent t

/-- The values passed to `gpiod_line_set_value`, in order. -/
def driven : List Event → List Int
  | [] => []
  | .gpiod_line_set_value _ v :: t => v :: driven t
  | _ :: t => driven t

/-- The number of `gpiod_line_release` calls. -/
def releases : List Event → Nat
  | [] => 0
  | .gpiod_line_release _ :: t => releases t + 1
  | _ :: t => releases t

/-- The number of `gpiod_chip_close` calls. -/
def closes : List Event → Nat
  | [] => 0
  | .gpiod_chip_close _ :: t => closes t + 1
  | _ :: t => closes t

/-- The whitespace-separated tokens of a line, collected by a left-to-right
scan; `cur` holds the characters of the token being read, last one first. -/
def tokensAux : CppString → CppString → List CppString
  | [], cur => if cur.isEmpty then [] else [cur.reverse]
  | c :: cs, cur =>
    if isspace c then
      if cur.isEmpty then tokensAux cs [] else cur.reverse :: tokensAux cs []
    else tokensAux cs (c :: cur)

/-- The whitespace-separated tokens of a line. -/
def tokens (line : CppString) : List CppString := tokensAux line []

/-- The tokens a stream can still deliver: none once the failbit is set,
otherwise those of the unread characters. -/
def pending (st : istringstream) : List CppString :=
  if st.failbit then [] else tokens st.buf

/-- The controller of `main`, `LedController(LED_PIN, CONSUMER_NAME)`, when the
chip and line lookups return the handles `chip` and `line`. -/
def acquired (chip line : Handle) : LedController :=
  ⟨LED_PIN, CONSUMER_NAME, some chip, some line, false⟩

/-! ## Lemmas on the string functions -/

theorem find_eq_zero_iff (s str : CppString) :
    find s str = some 0 ↔ str.isPrefixOf s = true := by
  by_cases h : str.isPrefixOf s = true
  · unfold find
    simp [h]
  · cases s with
    | nil => simp [find, h]
    | cons a t =>
      simp only [find, h]
      cases find t str <;> simp

theorem find_append (str r : CppString) : find (str ++ r) str = some 0 := by
  rw [find_eq_zero_iff]
  simp

theorem substr_append (str r : CppString) : substr (str ++ r) str.length = some r := by
  simp [substr]

/-- The first sixteen characters of a plain-text response: the status line is
closed by a carriage return. -/
theorem plainResponse_take (b : CppString) :
    (plainResponse b).take 16 = "HTTP/1.1 200 OK\r".toList := by
  rfl

/-- The first sixteen characters of the control page: the status line is
closed by a bare line feed. -/
theorem html_response_take : html_response.take 16 = "HTTP/1.1 200 OK\n".toList := by
  rfl

theorem plainResponse_ne_html (b : CppString) : plainResponse b ≠ html_response := by
  intro h
  have h1 := plainResponse_take b
  rw [h, html_response_take] at h1
  revert h1
  decide

/-! ## Lemmas on the loop body -/

theorem respond_written (led : LedController) (s : Int) (io : Conn) (pre : List Event)
    (msg : CppString) (hw : io.write_ok = true) :
    respond led s io pre msg =
      ⟨s, pre ++ [.send_ msg, .gpiod_line_set_value led.line_ s],
        decide (io.set_value_ret < 0)⟩ := by
  simp [respond, hw, LedController.SetLedStatus, LedController.setLineValue]

/-- The command branch: a path that starts with the literal, followed by `r`. -/
theorem loopBody_command (led : LedController) (s : Int) (io : Conn) (line r : CppString)
    (ha : io.accept_ok = true) (hr : io.request_line = some line)
    (hp : (parseRequestLine line).path = sendMessageLit ++ r) :
    loopBody led s io =
      respond led
        (if r == "on".toList then 1 else if r == "off".toList then 0 else s) io
        [.accept, .read_]
        (plainResponse ("button_pressed=".toList ++
          to_string (if r == "on".toList then 1 else if r == "off".toList then 0 else s))) := by
  simp only [loopBody, ha, hr, hp, find_append, substr_append]
  simp

/-- The page branch: a path that does not start with the literal. -/
theorem loopBody_page (led : LedController) (s : Int) (io : Conn) (line : CppString)
    (ha : io.accept_ok = true) (hr : io.request_line = some line)
    (hp : ¬ sendMessageLit <+: (parseRequestLine line).path) :
    loopBody led s io = respond led s io [.accept, .read_] html_response := by
  have hf : ¬ find (parseRequestLine line).path sendMessageLit = some 0 := by
    rw [find_eq_zero_iff, List.isPrefixOf_iff_prefix]
    exact hp
  simp [loopBody, ha, hr, hf]

theorem whileLoop_append (led : LedController) (pre post : List Conn) (s : Int) :
    whileLoop led s (pre ++ post) =
      if (whileLoop led s pre).thrown then whileLoop led s pre
      else
        ⟨(whileLoop led (whileLoop led s pre).button_pressed post).button_pressed,
          (whileLoop led s pre).trace ++
            (whileLoop led (whileLoop led s pre).button_pressed post).trace,
          (whileLoop led (whileLoop led s pre).button_pressed post).thrown⟩ := by
  induction pre generalizing s with
  | nil => simp [whileLoop]
  | cons io ios ih =>
    simp only [List.cons_append, whileLoop]
    by_cases h : (loopBody led s io).thrown = true
    · simp [h]
    · simp only [h, Bool.false_eq_true, if_false, List.append_eq]
      rw [ih]
      by_cases h2 : (whileLoop led (loopBody led s io).button_pressed ios).thrown = true
      · simp [h2]
      · simp [h2, List.append_assoc]

theorem whileLoop_single (led : LedController) (s : Int) (io : Conn) :
    whileLoop led s [io] = loopBody led s io := by
  simp only [whileLoop]
  generalize loopBody led s io = r
  cases r with
  | mk b t th => cases th <;> simp

theorem sent_append (a b : List Event) : sent (a ++ b) = sent a ++ sent b := by
  induction a with
  | nil => rfl
  | cons e t ih => cases e <;> simp [sent, ih]

theorem driven_append (a b : List Event) : driven (a ++ b) = driven a ++ driven b := by
  induction a with
  | nil => rfl
  | cons e t ih => cases e <;> simp [driven, ih]

/-! ## The commands `on` and `off` -/

/-- Claim C1.  Take any pass of the loop on which the accept, the read and the
write succeed, started with any value `s` of `button_pressed`.  If the path
token of the request line is exactly `/send?message=on`, the pass leaves
`button_pressed = 1` and its calls are accept, read, one `send_` of the
text/plain response with body `button_pressed=1`, then the set-value call with
argument 1; in a run of the loop, after any connections `pre` that were served
without an exception and from any starting value, the reply appended by this
request is that same response.  With `/send?message=off` the same holds with 0
and body `button_pressed=0`.  The two responses are spelled out in full. -/
theorem C1_on_off_command (led : LedController) (s : Int) (io : Conn) (line : CppString)
    (ha : io.accept_ok = true) (hr : io.request_line = some line)
    (hw : io.write_ok = true) :
    ((parseRequestLine line).path = "/send?message=on".toList →
      (loopBody led s io).button_pressed = 1 ∧
      (loopBody led s io).trace =
        [.accept, .read_, .send_ (plainResponse "button_pressed=1".toList),
          .gpiod_line_set_value led.line_ 1] ∧
      ∀ (pre : List Conn) (s0 : Int), (whileLoop led s0 pre).thrown = false →
        (whileLoop led s0 (pre ++ [io])).button_pressed = 1 ∧
        sent (whileLoop led s0 (pre ++ [io])).trace =
          sent (whileLoop led s0 pre).trace ++ [plainResponse "button_pressed=1".toList]) ∧
    ((parseRequestLine line).path = "/send?message=off".toList →
      (loopBody led s io).button_pressed = 0 ∧
      (loopBody led s io).trace =
        [.accept, .read_, .send_ (plainResponse "button_pressed=0".toList),
          .gpiod_line_set_value led.line_ 0] ∧
      ∀ (pre : List Conn) (s0 : Int), (whileLoop led s0 pre).thrown = false →
        (whileLoop led s0 (pre ++ [io])).button_pressed = 0 ∧
        sent (whileLoop led s0 (pre ++ [io])).trace =
          sent (whileLoop led s0 pre).trace ++ [plainResponse "button_pressed=0".toList]) ∧
    plainResponse "button_pressed=1".toList =
      ("HTTP/1.1 200 OK\r\nContent-Type: text/plain\r\nContent-Length: 16\r\n" ++
        "Connection: close\r\n\r\nbutton_pressed=1").toList ∧
    plainResponse "button_pressed=0".toList =
      ("HTTP/1.1 200 OK\r\nContent-Type: text/plain\r\nContent-Length: 16\r\n" ++
        "Connection: close\r\n\r\nbutton_pressed=0").toList := by
  have key : ∀ (r : CppString) (v : Int),
      (∀ t : Int, (if r == "on".toList then 1 else if r == "off".toList then 0 else t) = v) →
      (parseRequestLine line).path = sendMessageLit ++ r →
      ∀ t : Int, loopBody led t io =
        ⟨v, [.accept, .read_, .send_ (plainResponse ("button_pressed=".toList ++ to_string v)),
          .gpiod_line_set_value led.line_ v], decide (io.set_value_ret < 0)⟩ := by
    intro r v hv hp t
    rw [loopBody_command led t io line r ha hr hp, hv t, respond_written _ _ _ _ _ hw]
    rfl
  have seq : ∀ (v : Int) (msg : CppString),
      (∀ t : Int, loopBody led t io =
        ⟨v, [.accept, .read_, .send_ msg, .gpiod_line_set_value led.line_ v],
          decide (io.set_value_ret < 0)⟩) →
      ∀ (pre : List Conn) (s0 : Int), (whileLoop led s0 pre).thrown = false →
        (whileLoop led s0 (pre ++ [io])).button_pressed = v ∧
        sent (whileLoop led s0 (pre ++ [io])).trace =
          sent (whileLoop led s0 pre).trace ++ [msg] := by
    intro v msg h pre s0 hpre
    rw [whileLoop_append, whileLoop_single, h]
    simp [hpre, sent_append, sent]
  refine ⟨?_, ?_, by rfl, by rfl⟩
  · intro hp
    have h := key "on".toList 1 (by intro t; rfl) hp
    exact ⟨by rw [h s], by rw [h s]; rfl, seq 1 _ h⟩
  · intro hp
    have h := key "off".toList 0 (by intro t; rfl) hp
    exact ⟨by rw [h s], by rw [h s]; rfl, seq 0 _ h⟩

/-- Claim C1, at the request line `GET /send?message=on HTTP/1.1` served from
`button_pressed = 0`. -/
theorem C1_on_off_command_witness :
    (Conn.ok "GET /send?message=on HTTP/1.1\r\n".toList).accept_ok = true ∧
    (parseRequestLine "GET /send?message=on HTTP/1.1\r\n".toList).path =
      "/send?message=on".toList ∧
    (loopBody (acquired 0 1) 0 (Conn.ok "GET /send?message=on HTTP/1.1\r\n".toList)).button_pressed
      = 1 :=
  ⟨rfl, by decide,
    ((C1_on_off_command (acquired 0 1) 0 (Conn.ok "GET /send?message=on HTTP/1.1\r\n".toList)
      "GET /send?message=on HTTP/1.1\r\n".toList rfl rfl rfl).1 (by decide)).1⟩

/-- Claim C2.  Take any pass of the loop on which the accept, the read and the
write succeed, started with any value `s` of `button_pressed`.  If the path
token is `/send?message=` followed by a remainder `r` that is neither `on` nor
`off`, the pass leaves `button_pressed = s`, and its calls are accept, read,
one `send_` of the text/plain response whose body is `button_pressed=`
followed by the decimal of `s`, then the set-value call with argument `s`.
That response is not the HTML page, and its body follows the blank line that
ends the headers. -/
theorem C2_other_message_value (led : LedController) (s : Int) (io : Conn)
    (line r : CppString)
    (ha : io.accept_ok = true) (hr : io.request_line = some line)
    (hw : io.write_ok = true)
    (hp : (parseRequestLine line).path = "/send?message=".toList ++ r)
    (hon : r ≠ "on".toList) (hoff : r ≠ "off".toList) :
    (loopBody led s io).button_pressed = s ∧
    (loopBody led s io).trace =
      [.accept, .read_,
        .send_ (plainResponse ("button_pressed=".toList ++ to_string s)),
        .gpiod_line_set_value led.line_ s] ∧
    plainResponse ("button_pressed=".toList ++ to_string s) ≠ html_response ∧
    plainResponse ("button_pressed=".toList ++ to_string s) =
      "HTTP/1.1 200 OK\r\nContent-Type: text/plain\r\nContent-Length: ".toList ++
        to_string_size ("button_pressed=".toList ++ to_string s).length ++
        "\r\nConnection: close\r\n\r\n".toList ++
        ("button_pressed=".toList ++ to_string s) := by
  have h := loopBody_command led s io line r ha hr hp
  have e : (if r == "on".toList then (1 : Int) else if r == "off".toList then 0 else s) = s := by
    rw [if_neg (fun h => hon (eq_of_beq h)), if_neg (fun h => hoff (eq_of_beq h))]
  rw [e, respond_written _ _ _ _ _ hw] at h
  rw [h]
  exact ⟨rfl, rfl, plainResponse_ne_html _, rfl⟩

/-- Claim C2, at the request line `GET /send?message=toggle HTTP/1.1` served
from `button_pressed = 1`. -/
theorem C2_other_message_value_witness :
    (parseRequestLine "GET /send?message=toggle HTTP/1.1\r\n".toList).path =
      "/send?message=".toList ++ "toggle".toList ∧
    "toggle".toList ≠ "on".toList ∧ "toggle".toList ≠ "off".toList ∧
    (loopBody (acquired 0 1) 1
      (Conn.ok "GET /send?message=toggle HTTP/1.1\r\n".toList)).button_pressed = 1 :=
  ⟨by decide, by decide, by decide,
    (C2_other_message_value (acquired 0 1) 1
      (Conn.ok "GET /send?message=toggle HTTP/1.1\r\n".toList)
      "GET /send?message=toggle HTTP/1.1\r\n".toList "toggle".toList
      rfl rfl rfl (by decide) (by decide) (by decide)).1⟩

/-- Claim C3.  Take any pass of the loop on which the accept, the read and the
write succeed, started with any value `s` of `button_pressed`.  If the path
token does not start with the literal `/send?message=` (the empty path
included), the pass leaves `button_pressed = s` and its calls are accept,
read, one `send_` of the constant `html_response`, then the set-value call
with argument `s`. -/
theorem C3_other_path_serves_page (led : LedController) (s : Int) (io : Conn)
    (line : CppString)
    (ha : io.accept_ok = true) (hr : io.request_line = some line)
    (hw : io.write_ok = true)
    (hp : ¬ "/send?message=".toList <+: (parseRequestLine line).path) :
    (loopBody led s io).button_pressed = s ∧
    (loopBody led s io).trace =
      [.accept, .read_, .send_ html_response, .gpiod_line_set_value led.line_ s] := by
  rw [loopBody_page led s io line ha hr hp, respond_written _ _ _ _ _ hw]
  exact ⟨rfl, rfl⟩

/-- Claim C3, at the request line `GET /bogus HTTP/1.1` served from
`button_pressed = 1`. -/
theorem C3_other_path_serves_page_witness :
    ¬ "/send?message=".toList <+:
      (parseRequestLine "GET /bogus HTTP/1.1\r\n".toList).path ∧
    (loopBody (acquired 0 1) 1 (Conn.ok "GET /bogus HTTP/1.1\r\n".toList)).button_pressed = 1 ∧
    (loopBody (acquired 0 1) 1 (Conn.ok "GET /bogus HTTP/1.1\r\n".toList)).trace =
      [.accept, .read_, .send_ html_response, .gpiod_line_set_value (some 1) 1] :=
  ⟨by decide,
    C3_other_path_serves_page (acquired 0 1) 1 (Conn.ok "GET /bogus HTTP/1.1\r\n".toList)
      "GET /bogus HTTP/1.1\r\n".toList rfl rfl rfl (by decide)⟩

/-! ## The line follows `button_pressed` -/

theorem respond_completed (led : LedController) (s : Int) (io : Conn) (pre : List Event)
    (msg : CppString) (h : (respond led s io pre msg).thrown = false) :
    respond led s io pre msg =
      ⟨s, pre ++ [.send_ msg, .gpiod_line_set_value led.line_ s], false⟩ := by
  by_cases hw : io.write_ok = true
  · rw [respond_written _ _ _ _ _ hw] at h ⊢
    simp only at h
    rw [h]
  · simp [respond, hw] at h

theorem loopBody_completed (led : LedController) (s : Int) (io : Conn)
    (h : (loopBody led s io).thrown = false) :
    ∃ msg, loopBody led s io =
      ⟨(loopBody led s io).button_pressed,
        [.accept, .read_, .send_ msg,
          .gpiod_line_set_value led.line_ (loopBody led s io).button_pressed], false⟩ := by
  cases hacc : io.accept_ok with
  | false => simp [loopBody, hacc] at h
  | true =>
    cases hreq : io.request_line with
    | none => simp [loopBody, hacc, hreq] at h
    | some line =>
      by_cases hp : sendMessageLit <+: (parseRequestLine line).path
      · obtain ⟨r, hr⟩ := hp
        have e := loopBody_command led s io line r hacc hreq hr.symm
        rw [e] at h ⊢
        rw [respond_completed _ _ _ _ _ h]
        exact ⟨_, rfl⟩
      · have e := loopBody_page led s io line hacc hreq hp
        rw [e] at h ⊢
        rw [respond_completed _ _ _ _ _ h]
        exact ⟨_, rfl⟩

/-- Claim C4.  A pass of the loop that completes (no exception), started with
any value of `button_pressed`, issues the calls accept, read, exactly one
`send_` and then exactly one set-value call, whose argument is the value of
`button_pressed` the pass leaves.  Hence, when the pass follows any run of
completed passes, the run extended by it has not left the loop and the value
last driven equals `button_pressed`.  Scenario: from the initial value, the
requests `/`, `/send?message=on`, `/bogus`, `/send?message=off` are answered
by the page, `button_pressed=1`, the page, `button_pressed=0`, and the values
driven are 0, 1, 1, 0. -/
theorem C4_line_follows_button_pressed (led : LedController) (s : Int) (io : Conn)
    (h : (loopBody led s io).thrown = false) :
    (∃ msg, (loopBody led s io).trace =
      [.accept, .read_, .send_ msg,
        .gpiod_line_set_value led.line_ (loopBody led s io).button_pressed]) ∧
    (∀ (pre : List Conn) (s0 : Int), (whileLoop led s0 pre).thrown = false →
      (whileLoop led s0 pre).button_pressed = s →
      (whileLoop led s0 (pre ++ [io])).thrown = false ∧
      (whileLoop led s0 (pre ++ [io])).button_pressed = (loopBody led s io).button_pressed ∧
      driven (whileLoop led s0 (pre ++ [io])).trace =
        driven (whileLoop led s0 pre).trace ++ [(loopBody led s io).button_pressed] ∧
      (driven (whileLoop led s0 (pre ++ [io])).trace).getLast? =
        some (whileLoop led s0 (pre ++ [io])).button_pressed) ∧
    (whileLoop led button_pressed_init
        [Conn.ok "GET / HTTP/1.1\r\n".toList,
          Conn.ok "GET /send?message=on HTTP/1.1\r\n".toList,
          Conn.ok "GET /bogus HTTP/1.1\r\n".toList,
          Conn.ok "GET /send?message=off HTTP/1.1\r\n".toList]).thrown = false ∧
    sent (whileLoop led button_pressed_init
        [Conn.ok "GET / HTTP/1.1\r\n".toList,
          Conn.ok "GET /send?message=on HTTP/1.1\r\n".toList,
          Conn.ok "GET /bogus HTTP/1.1\r\n".toList,
          Conn.ok "GET /send?message=off HTTP/1.1\r\n".toList]).trace =
      [html_response, plainResponse "button_pressed=1".toList,
        html_response, plainResponse "button_pressed=0".toList] ∧
    driven (whileLoop led button_pressed_init
        [Conn.ok "GET / HTTP/1.1\r\n".toList,
          Conn.ok "GET /send?message=on HTTP/1.1\r\n".toList,
          Conn.ok "GET /bogus HTTP/1.1\r\n".toList,
          Conn.ok "GET /send?message=off HTTP/1.1\r\n".toList]).trace = [0, 1, 1, 0] := by
  obtain ⟨msg, hm⟩ := loopBody_completed led s io h
  refine ⟨⟨msg, by rw [hm]⟩, ?_, by rfl, by rfl, by rfl⟩
  intro pre s0 hpre hs
  have e : whileLoop led s0 (pre ++ [io]) =
      ⟨(loopBody led s io).button_pressed,
        (whileLoop led s0 pre).trace ++ (loopBody led s io).trace, false⟩ := by
    rw [whileLoop_append, whileLoop_single, hs]
    simp [hpre, h]
  rw [e]
  have hd : driven (loopBody led s io).trace = [(loopBody led s io).button_pressed] := by
    rw [hm]
    rfl
  refine ⟨rfl, rfl, ?_, ?_⟩
  · simp only [driven_append, hd]
  · simp only [driven_append, hd]
    exact List.getLast?_concat _

/-- Claim C4, at the request line `GET /send?message=on HTTP/1.1` served from
`button_pressed = 0`. -/
theorem C4_line_follows_button_pressed_witness :
    (loopBody (acquired 0 1) 0
      (Conn.ok "GET /send?message=on HTTP/1.1\r\n".toList)).thrown = false ∧
    ∃ msg, (loopBody (acquired 0 1) 0
        (Conn.ok "GET /send?message=on HTTP/1.1\r\n".toList)).trace =
      [.accept, .read_, .send_ msg,
        .gpiod_line_set_value (acquired 0 1).line_
          (loopBody (acquired 0 1) 0
            (Conn.ok "GET /send?message=on HTTP/1.1\r\n".toList)).button_pressed] :=
  ⟨by decide,
    (C4_line_follows_button_pressed (acquired 0 1) 0
      (Conn.ok "GET /send?message=on HTTP/1.1\r\n".toList) (by decide)).1⟩

/-! ## Repeating a command -/

theorem whileLoop_replicate (led : LedController) (io : Conn) (v : Int) (msg : CppString)
    (h : ∀ t : Int, loopBody led t io =
      ⟨v, [.accept, .read_, .send_ msg, .gpiod_line_set_value led.line_ v], false⟩)
    (n : Nat) (s : Int) :
    (whileLoop led s (List.replicate (n + 1) io)).thrown = false ∧
    (whileLoop led s (List.replicate (n + 1) io)).button_pressed = v ∧
    sent (whileLoop led s (List.replicate (n + 1) io)).trace = List.replicate (n + 1) msg ∧
    driven (whileLoop led s (List.replicate (n + 1) io)).trace = List.replicate (n + 1) v := by
  induction n generalizing s with
  | zero =>
    rw [Nat.zero_add, List.replicate_one, whileLoop_single, h]
    exact ⟨rfl, rfl, rfl, rfl⟩
  | succ m ih =>
    rw [List.replicate_succ, whileLoop, h]
    simp only [Bool.false_eq_true, if_false]
    obtain ⟨h1, h2, h3, h4⟩ := ih v
    refine ⟨h1, h2, ?_, ?_⟩
    · show sent _ = msg :: List.replicate (m + 1) msg
      simp only [sent, List.cons_append, List.nil_append, List.append_eq, h3]
    · show driven _ = v :: List.replicate (m + 1) v
      simp only [driven, List.cons_append, List.nil_append, List.append_eq, h4]

/-- Claim C6.  From any value `s` of `button_pressed` and for every `n ≥ 1`,
serving `n` times in a row a request whose path token is `/send?message=on`
(nothing failing) leaves the loop running with the same `button_pressed`, the
same value last driven and the same last reply as serving it once, namely 1, 1
and the response with body `button_pressed=1`; every one of the `n` replies
and driven values is that one.  The same holds for `/send?message=off` with 0
and `button_pressed=0`. -/
theorem C6_repeated_command (led : LedController) (s : Int) (n : Nat) (line : CppString)
    (hn : 1 ≤ n) :
    ((parseRequestLine line).path = "/send?message=on".toList →
      (whileLoop led s (List.replicate n (Conn.ok line))).thrown = false ∧
      (whileLoop led s (List.replicate n (Conn.ok line))).button_pressed =
        (loopBody led s (Conn.ok line)).button_pressed ∧
      (driven (whileLoop led s (List.replicate n (Conn.ok line))).trace).getLast? =
        (driven (loopBody led s (Conn.ok line)).trace).getLast? ∧
      (sent (whileLoop led s (List.replicate n (Conn.ok line))).trace).getLast? =
        (sent (loopBody led s (Conn.ok line)).trace).getLast? ∧
      (loopBody led s (Conn.ok line)).button_pressed = 1 ∧
      driven (whileLoop led s (List.replicate n (Conn.ok line))).trace = List.replicate n 1 ∧
      sent (whileLoop led s (List.replicate n (Conn.ok line))).trace =
        List.replicate n (plainResponse "button_pressed=1".toList)) ∧
    ((parseRequestLine line).path = "/send?message=off".toList →
      (whileLoop led s (List.replicate n (Conn.ok line))).thrown = false ∧
      (whileLoop led s (List.replicate n (Conn.ok line))).button_pressed =
        (loopBody led s (Conn.ok line)).button_pressed ∧
      (driven (whileLoop led s (List.replicate n (Conn.ok line))).trace).getLast? =
        (driven (loopBody led s (Conn.ok line)).trace).getLast? ∧
      (sent (whileLoop led s (List.replicate n (Conn.ok line))).trace).getLast? =
        (sent (loopBody led s (Conn.ok line)).trace).getLast? ∧
      (loopBody led s (Conn.ok line)).button_pressed = 0 ∧
      driven (whileLoop led s (List.replicate n (Conn.ok line))).trace = List.replicate n 0 ∧
      sent (whileLoop led s (List.replicate n (Conn.ok line))).trace =
        List.replicate n (plainResponse "button_pressed=0".toList)) := by
  obtain ⟨m, rfl⟩ : ∃ m, n = m + 1 := ⟨n - 1, by omega⟩
  have key : ∀ (r : CppString) (v : Int),
      (∀ t : Int, (if r == "on".toList then 1 else if r == "off".toList then 0 else t) = v) →
      (parseRequestLine line).path = sendMessageLit ++ r →
      ∀ t : Int, loopBody led t (Conn.ok line) =
        ⟨v, [.accept, .read_, .send_ (plainResponse ("button_pressed=".toList ++ to_string v)),
          .gpiod_line_set_value led.line_ v], false⟩ := by
    intro r v hv hp t
    rw [loopBody_command led t (Conn.ok line) line r rfl rfl hp, hv t,
      respond_written _ _ _ _ _ rfl]
    rfl
  have fin : ∀ (v : Int) (msg : CppString),
      (∀ t : Int, loopBody led t (Conn.ok line) =
        ⟨v, [.accept, .read_, .send_ msg, .gpiod_line_set_value led.line_ v], false⟩) →
      (whileLoop led s (List.replicate (m + 1) (Conn.ok line))).thrown = false ∧
      (whileLoop led s (List.replicate (m + 1) (Conn.ok line))).button_pressed =
        (loopBody led s (Conn.ok line)).button_pressed ∧
      (driven (whileLoop led s (List.replicate (m + 1) (Conn.ok line))).trace).getLast? =
        (driven (loopBody led s (Conn.ok line)).trace).getLast? ∧
      (sent (whileLoop led s (List.replicate (m + 1) (Conn.ok line))).trace).getLast? =
        (sent (loopBody led s (Conn.ok line)).trace).getLast? ∧
      (loopBody led s (Conn.ok line)).button_pressed = v ∧
      driven (whileLoop led s (List.replicate (m + 1) (Conn.ok line))).trace =
        List.replicate (m + 1) v ∧
      sent (whileLoop led s (List.replicate (m + 1) (Conn.ok line))).trace =
        List.replicate (m + 1) msg := by
    intro v msg h
    obtain ⟨h1, h2, h3, h4⟩ := whileLoop_replicate led (Conn.ok line) v msg h m s
    refine ⟨h1, ?_, ?_, ?_, ?_, h4, h3⟩
    · rw [h2, h s]
    · rw [h4, h s, List.replicate_succ', List.getLast?_concat]
      rfl
    · rw [h3, h s, List.replicate_succ', List.getLast?_concat]
      rfl
    · rw [h s]
  exact ⟨fun hp => fin 1 _ (key "on".toList 1 (fun _ => rfl) hp),
    fun hp => fin 0 _ (key "off".toList 0 (fun _ => rfl) hp)⟩

/-- Claim C6, at three `GET /send?message=off HTTP/1.1` requests served from
`button_pressed = 1`. -/
theorem C6_repeated_command_witness :
    1 ≤ 3 ∧
    (parseRequestLine "GET /send?message=off HTTP/1.1\r\n".toList).path =
      "/send?message=off".toList ∧
    (whileLoop (acquired 0 1) 1
      (List.replicate 3 (Conn.ok "GET /send?message=off HTTP/1.1\r\n".toList))).button_pressed =
      (loopBody (acquired 0 1) 1
        (Conn.ok "GET /send?message=off HTTP/1.1\r\n".toList)).button_pressed :=
  ⟨by decide, by decide,
    ((C6_repeated_command (acquired 0 1) 1 3 "GET /send?message=off HTTP/1.1\r\n".toList
      (by decide)).2 (by decide)).2.1⟩

/-! ## `cleanup()` and the teardown -/

theorem new_some (pin : Int) (name : CppString) (chip line : Option Handle) (req : Int)
    (c : LedController) (t : List Event)
    (h : LedController.new pin name chip line req = (some c, t)) :
    c = ⟨pin, name, chip, line, false⟩ ∧ chip.isSome = true ∧ line.isSome = true := by
  cases chip with
  | none => simp [LedController.new] at h
  | some ch =>
    cases line with
    | none => simp [LedController.new] at h
    | some ln =>
      by_cases hreq : req < 0
      · simp [LedController.new, hreq] at h
      · simp only [LedController.new, Option.isSome_some, Bool.not_true, Bool.false_eq_true,
          if_false, hreq, Prod.mk.injEq, Option.some.injEq] at h
        exact ⟨h.1.symm, rfl, rfl⟩

/-- Claim C5.  Let `c` be a controller returned by the constructor (so chip
and line were acquired).  A first `cleanup()` whose set-value call is accepted
issues exactly the calls set-value(line, 0), `gpiod_line_release(line)`,
`gpiod_chip_close(chip)`, in this order, and changes nothing in the object but
the flag `cleaned_up_`, which becomes true.  A second `cleanup()` right after
issues no call and leaves the object as it is.  The two calls together drive
the line to 0 once, release it once and close the chip once. -/
theorem C5_cleanup_twice (pin : Int) (name : CppString) (chip line : Option Handle)
    (req : Int) (c : LedController) (t : List Event) (ret1 ret2 : Int)
    (hacq : LedController.new pin name chip line req = (some c, t))
    (hok : 0 ≤ ret1) :
    c.cleanup ret1 =
      ⟨{ c with cleaned_up_ := true },
        [.gpiod_line_set_value c.line_ 0, .gpiod_line_release c.line_,
          .gpiod_chip_close c.chip_], false⟩ ∧
    c.line_.isSome = true ∧ c.chip_.isSome = true ∧
    (c.cleanup ret1).self.cleanup ret2 = ⟨(c.cleanup ret1).self, [], false⟩ ∧
    driven ((c.cleanup ret1).trace ++ ((c.cleanup ret1).self.cleanup ret2).trace) = [0] ∧
    releases ((c.cleanup ret1).trace ++ ((c.cleanup ret1).self.cleanup ret2).trace) = 1 ∧
    closes ((c.cleanup ret1).trace ++ ((c.cleanup ret1).self.cleanup ret2).trace) = 1 := by
  obtain ⟨rfl, hc, hl⟩ := new_some pin name chip line req c t hacq
  have hr : ¬ ret1 < 0 := by omega
  have e1 : LedController.cleanup ⟨pin, name, chip, line, false⟩ ret1 =
      ⟨⟨pin, name, chip, line, true⟩,
        [.gpiod_line_set_value line 0, .gpiod_line_release line, .gpiod_chip_close chip],
        false⟩ := by
    simp [LedController.cleanup, LedController.setLineValue, hc, hl, hr]
  have e2 : LedController.cleanup ⟨pin, name, chip, line, true⟩ ret2 =
      ⟨⟨pin, name, chip, line, true⟩, [], false⟩ := by
    simp [LedController.cleanup]
  rw [e1]
  refine ⟨rfl, hl, hc, e2, ?_, ?_, ?_⟩
  · show driven (_ ++ (LedController.cleanup ⟨pin, name, chip, line, true⟩ ret2).trace) = [0]
    rw [e2]
    rfl
  · show releases (_ ++ (LedController.cleanup ⟨pin, name, chip, line, true⟩ ret2).trace) = 1
    rw [e2]
    rfl
  · show closes (_ ++ (LedController.cleanup ⟨pin, name, chip, line, true⟩ ret2).trace) = 1
    rw [e2]
    rfl

/-- Claim C5, at the controller of `main` with chip handle 0 and line handle 1. -/
theorem C5_cleanup_twice_witness :
    LedController.new LED_PIN CONSUMER_NAME (some 0) (some 1) 0 =
      (some (acquired 0 1),
        [.gpiod_chip_open_by_name "gpiochip0".toList, .gpiod_chip_get_line (some 0) 22,
          .gpiod_line_request_output (some 1) CONSUMER_NAME 0]) ∧
    (0 : Int) ≤ 0 ∧
    (acquired 0 1).cleanup 0 =
      ⟨{ acquired 0 1 with cleaned_up_ := true },
        [.gpiod_line_set_value (some 1) 0, .gpiod_line_release (some 1),
          .gpiod_chip_close (some 0)], false⟩ :=
  ⟨by decide, by decide,
    (C5_cleanup_twice LED_PIN CONSUMER_NAME (some 0) (some 1) 0 (acquired 0 1)
      [.gpiod_chip_open_by_name "gpiochip0".toList, .gpiod_chip_get_line (some 0) 22,
        .gpiod_line_request_output (some 1) CONSUMER_NAME 0] 0 (-1)
      (by decide) (by decide)).1⟩

/-- Claim C8 fails as stated: on the acquired controller of `main`, a
`cleanup()` whose set-value(0) call is rejected (return code -1) is left by the
exception of `setLineValue`; the only call issued is that set-value, neither
`gpiod_line_release` nor `gpiod_chip_close` follows, and `cleaned_up_` stays
false. -/
theorem C8_cleanup_throws_counterexample :
    (acquired 0 1).cleanup (-1) =
      ⟨acquired 0 1, [.gpiod_line_set_value (some 1) 0], true⟩ ∧
    ((acquired 0 1).cleanup (-1)).self.cleaned_up_ = false ∧
    releases ((acquired 0 1).cleanup (-1)).trace = 0 ∧
    closes ((acquired 0 1).cleanup (-1)).trace = 0 := by
  decide

/-- Claim C8, amended.  For every controller state and every return code of
the set-value call, `cleanup()` throws exactly when the controller is not yet
cleaned up, holds a line, and the set-value(0) call is rejected.  When it
throws, the object is unchanged (in particular `cleaned_up_` stays false) and
the only call issued is the set-value.  When it does not throw, the object is
marked cleaned up, and a controller that was not yet cleaned up had its line
(if held) released once and its chip (if held) closed once. -/
theorem C8_cleanup_failure_amended (c : LedController) (ret : Int) :
    ((c.cleanup ret).thrown = true ↔
      (c.cleaned_up_ = false ∧ c.line_.isSome = true ∧ ret < 0)) ∧
    ((c.cleanup ret).thrown = true →
      (c.cleanup ret).self = c ∧
      (c.cleanup ret).trace = [.gpiod_line_set_value c.line_ 0]) ∧
    ((c.cleanup ret).thrown = false →
      (c.cleanup ret).self.cleaned_up_ = true ∧
      (c.cleaned_up_ = false →
        releases (c.cleanup ret).trace = (if c.line_.isSome then 1 else 0) ∧
        closes (c.cleanup ret).trace = (if c.chip_.isSome then 1 else 0))) := by
  obtain ⟨pin, name, chip, line, cu⟩ := c
  cases cu with
  | true => simp [LedController.cleanup]
  | false =>
    cases line with
    | none =>
      cases chip <;> simp [LedController.cleanup, releases, closes]
    | some ln =>
      by_cases hr : ret < 0
      · simp [LedController.cleanup, LedController.setLineValue, hr]
      · cases chip <;>
          simp [LedController.cleanup, LedController.setLineValue, hr, releases, closes]

/-- Claim C8 amended, at the acquired controller of `main` and return code -1. -/
theorem C8_cleanup_failure_amended_witness :
    ((acquired 0 1).cleanup (-1)).thrown = true ∧
    ((acquired 0 1).cleanup (-1)).self = acquired 0 1 ∧
    ((acquired 0 1).cleanup (-1)).trace = [.gpiod_line_set_value (acquired 0 1).line_ 0] :=
  ⟨by decide, (C8_cleanup_failure_amended (acquired 0 1) (-1)).2.1 (by decide)⟩

theorem releases_append (a b : List Event) : releases (a ++ b) = releases a + releases b := by
  induction a with
  | nil => simp [releases]
  | cons e t ih =>
    cases e <;> simp only [List.cons_append, List.append_eq, releases, ih]
    all_goals omega

theorem closes_append (a b : List Event) : closes (a ++ b) = closes a + closes b := by
  induction a with
  | nil => simp [closes]
  | cons e t ih =>
    cases e <;> simp only [List.cons_append, List.append_eq, closes, ih]
    all_goals omega

theorem setLedStatusAll_counts (c : LedController) (vals : List Int) :
    releases (setLedStatusAll c vals) = 0 ∧ closes (setLedStatusAll c vals) = 0 := by
  induction vals with
  | nil => exact ⟨rfl, rfl⟩
  | cons v vs ih =>
    simp only [setLedStatusAll, LedController.SetLedStatus, LedController.setLineValue,
      List.cons_append, List.nil_append, releases, closes]
    exact ih

/-- Claim C10 fails on the code.  Over the life of the controller of `main`
with no hardware call failing (construction, any `SetLedStatus` calls, then
either teardown: destruction alone, or `signalHandler` with its explicit
`cleanup()` followed by `std::exit`), the teardown is the five calls
set-value(line, 0), `gpiod_line_release(line)`, `gpiod_chip_close(chip)`,
`gpiod_line_release(line)`, `gpiod_chip_close(chip)`: `cleanup()` releases the
handles by hand and the deleters of `line_` and `chip_` release them again.
So `gpiod_line_release` and `gpiod_chip_close` are each invoked twice. -/
theorem C10_double_release (chip line : Handle) (vals : List Int) (sigint : Bool) :
    lifetime chip line vals sigint =
      [.gpiod_chip_open_by_name "gpiochip0".toList, .gpiod_chip_get_line (some chip) LED_PIN,
        .gpiod_line_request_output (some line) CONSUMER_NAME 0] ++
      setLedStatusAll (acquired chip line) vals ++
      [.gpiod_line_set_value (some line) 0, .gpiod_line_release (some line),
        .gpiod_chip_close (some chip), .gpiod_line_release (some line),
        .gpiod_chip_close (some chip)] ∧
    releases (lifetime chip line vals sigint) = 2 ∧
    closes (lifetime chip line vals sigint) = 2 := by
  have e : lifetime chip line vals sigint =
      [.gpiod_chip_open_by_name "gpiochip0".toList, .gpiod_chip_get_line (some chip) LED_PIN,
        .gpiod_line_request_output (some line) CONSUMER_NAME 0] ++
      setLedStatusAll (acquired chip line) vals ++
      [.gpiod_line_set_value (some line) 0, .gpiod_line_release (some line),
        .gpiod_chip_close (some chip), .gpiod_line_release (some line),
        .gpiod_chip_close (some chip)] := by
    cases sigint <;>
      simp [lifetime, LedController.new, signalHandler, LedController.destroy,
        LedController.cleanup, LedController.setLineValue, LedController.destroyMembers,
        acquired]
  obtain ⟨h1, h2⟩ := setLedStatusAll_counts (acquired chip line) vals
  rw [e]
  refine ⟨rfl, ?_, ?_⟩
  · simp [releases_append, h1, releases]
  · simp [closes_append, h2, closes]

/-! ## Failures inside the loop -/

theorem respond_thrown (led : LedController) (s : Int) (io : Conn) (pre : List Event)
    (msg : CppString) :
    (respond led s io pre msg).thrown = (!io.write_ok || decide (io.set_value_ret < 0)) := by
  cases hw : io.write_ok <;>
    simp [respond, hw, LedController.SetLedStatus, LedController.setLineValue]

theorem respond_accepts (led : LedController) (s : Int) (io : Conn) (msg : CppString) :
    List.count Event.accept (respond led s io [.accept, .read_] msg).trace = 1 := by
  cases hw : io.write_ok <;>
    simp [respond, hw, LedController.SetLedStatus, LedController.setLineValue]

theorem loopBody_cases (led : LedController) (s : Int) (io : Conn) :
    loopBody led s io = ⟨s, [.accept], true⟩ ∨
    loopBody led s io = ⟨s, [.accept, .read_], true⟩ ∨
    io.accept_ok = true ∧ io.request_line ≠ none ∧
      ∃ s1 msg, loopBody led s io = respond led s1 io [.accept, .read_] msg := by
  cases hacc : io.accept_ok with
  | false => exact Or.inl (by simp [loopBody, hacc])
  | true =>
    cases hreq : io.request_line with
    | none => exact Or.inr (Or.inl (by simp [loopBody, hacc, hreq]))
    | some line =>
      refine Or.inr (Or.inr ⟨rfl, by simp, ?_⟩)
      by_cases hp : sendMessageLit <+: (parseRequestLine line).path
      · obtain ⟨r, hr⟩ := hp
        exact ⟨_, _, loopBody_command led s io line r hacc hreq hr.symm⟩
      · exact ⟨_, _, loopBody_page led s io line hacc hreq hp⟩

theorem loopBody_accepts (led : LedController) (s : Int) (io : Conn) :
    List.count Event.accept (loopBody led s io).trace = 1 := by
  rcases loopBody_cases led s io with h | h | ⟨_, _, s1, msg, h⟩
  · rw [h]
    rfl
  · rw [h]
    rfl
  · rw [h]
    exact respond_accepts led s1 io msg

theorem loopBody_thrown (led : LedController) (s : Int) (io : Conn)
    (hfail : io.accept_ok = false ∨ io.request_line = none ∨ io.write_ok = false ∨
      io.set_value_ret < 0) :
    (loopBody led s io).thrown = true := by
  rcases loopBody_cases led s io with h | h | ⟨hacc, hreq, s1, msg, h⟩
  · rw [h]
  · rw [h]
  · rw [h, respond_thrown]
    rcases hfail with ha | hr | hw | hs
    · rw [hacc] at ha
      cases ha
    · exact absurd hr hreq
    · simp [hw]
    · simp [hs]

/-- Claim C7 fails as stated.  On the acquired controller, from
`button_pressed = 0`, a first connection on which one operation fails is
followed by a connection asking `/send?message=on` on which nothing fails.  In
each of the four cases (the accept fails; the read fails; the write fails; the
set-value call after the response is rejected) the exception leaves
`while (true)`: the run ends with `thrown`, its calls are those of the first
connection only, and the second request is neither accepted nor answered, so
`button_pressed` never becomes 1. -/
theorem C7_failure_ends_loop_counterexample :
    whileLoop (acquired 0 1) 0
        [⟨false, some "GET / HTTP/1.1\r\n".toList, true, 0⟩,
          Conn.ok "GET /send?message=on HTTP/1.1\r\n".toList] =
      ⟨0, [.accept], true⟩ ∧
    whileLoop (acquired 0 1) 0
        [⟨true, none, true, 0⟩, Conn.ok "GET /send?message=on HTTP/1.1\r\n".toList] =
      ⟨0, [.accept, .read_], true⟩ ∧
    whileLoop (acquired 0 1) 0
        [⟨true, some "GET / HTTP/1.1\r\n".toList, false, 0⟩,
          Conn.ok "GET /send?message=on HTTP/1.1\r\n".toList] =
      ⟨0, [.accept, .read_, .send_ html_response], true⟩ ∧
    whileLoop (acquired 0 1) 0
        [⟨true, some "GET / HTTP/1.1\r\n".toList, true, -1⟩,
          Conn.ok "GET /send?message=on HTTP/1.1\r\n".toList] =
      ⟨0, [.accept, .read_, .send_ html_response, .gpiod_line_set_value (some 1) 0],
        true⟩ := by
  refine ⟨by rfl, by rfl, by rfl, by rfl⟩

/-- Claim C7, amended.  A pass of the loop in which the accept, the request
read, the response write or the set-value call after the response fails is
left by an exception, and that exception leaves `while (true)`: the run of
the loop over this connection and any later ones is the failing pass alone,
so it issues one accept only and no later connection is accepted or served. -/
theorem C7_failure_ends_loop_amended (led : LedController) (s : Int) (io : Conn)
    (ios : List Conn)
    (hfail : io.accept_ok = false ∨ io.request_line = none ∨ io.write_ok = false ∨
      io.set_value_ret < 0) :
    (loopBody led s io).thrown = true ∧
    whileLoop led s (io :: ios) = loopBody led s io ∧
    (whileLoop led s (io :: ios)).thrown = true ∧
    List.count Event.accept (whileLoop led s (io :: ios)).trace = 1 := by
  have ht := loopBody_thrown led s io hfail
  have e : whileLoop led s (io :: ios) = loopBody led s io := by
    simp [whileLoop, ht]
  rw [e]
  exact ⟨ht, rfl, ht, loopBody_accepts led s io⟩

/-- Claim C7 amended, at a connection whose write fails, followed by an `on`
request. -/
theorem C7_failure_ends_loop_amended_witness :
    ((⟨true, some "GET / HTTP/1.1\r\n".toList, false, 0⟩ : Conn).accept_ok = false ∨
      (⟨true, some "GET / HTTP/1.1\r\n".toList, false, 0⟩ : Conn).request_line = none ∨
      (⟨true, some "GET / HTTP/1.1\r\n".toList, false, 0⟩ : Conn).write_ok = false ∨
      (⟨true, some "GET / HTTP/1.1\r\n".toList, false, 0⟩ : Conn).set_value_ret < 0) ∧
    (whileLoop (acquired 0 1) 0
      [⟨true, some "GET / HTTP/1.1\r\n".toList, false, 0⟩,
        Conn.ok "GET /send?message=on HTTP/1.1\r\n".toList]).thrown = true :=
  ⟨Or.inr (Or.inr (Or.inl rfl)),
    (C7_failure_ends_loop_amended (acquired 0 1) 0
      ⟨true, some "GET / HTTP/1.1\r\n".toList, false, 0⟩
      [Conn.ok "GET /send?message=on HTTP/1.1\r\n".toList]
      (Or.inr (Or.inr (Or.inl rfl)))).2.2.1⟩

/-! ## Request lines with missing tokens -/

theorem tokensAux_skip (l : CppString) :
    tokensAux l [] = tokensAux (l.dropWhile isspace) [] := by
  induction l with
  | nil => rfl
  | cons c cs ih =>
    by_cases hc : isspace c = true
    · simp only [tokensAux, hc, if_true, List.isEmpty_nil, List.dropWhile_cons_of_pos, ih]
    · have e : List.dropWhile isspace (c :: cs) = c :: cs := by
        simp [List.dropWhile, hc]
      rw [e]

theorem tokensAux_word (l cur : CppString) :
    tokensAux l cur =
      if cur.reverse ++ l.takeWhile (fun c => !isspace c) = [] then
        tokensAux (l.dropWhile (fun c => !isspace c)) []
      else
        (cur.reverse ++ l.takeWhile (fun c => !isspace c)) ::
          tokensAux (l.dropWhile (fun c => !isspace c)) [] := by
  induction l generalizing cur with
  | nil =>
    cases cur with
    | nil => simp [tokensAux]
    | cons a t => simp [tokensAux]
  | cons c cs ih =>
    by_cases hc : isspace c = true
    · have h1 : List.takeWhile (fun c => !isspace c) (c :: cs) = [] := by
        simp [List.takeWhile, hc]
      have h2 : List.dropWhile (fun c => !isspace c) (c :: cs) = c :: cs := by
        simp [List.dropWhile, hc]
      rw [h1, h2]
      cases cur with
      | nil => simp [tokensAux, hc]
      | cons a t => simp [tokensAux, hc]
    · have hc' : isspace c = false := by simpa using hc
      have h1 : List.takeWhile (fun c => !isspace c) (c :: cs) =
          c :: List.takeWhile (fun c => !isspace c) cs := by
        simp [List.takeWhile, hc']
      have h2 : List.dropWhile (fun c => !isspace c) (c :: cs) =
          List.dropWhile (fun c => !isspace c) cs := by
        simp [List.dropWhile, hc']
      rw [h1, h2]
      have e : tokensAux (c :: cs) cur = tokensAux cs (c :: cur) := by
        simp [tokensAux, hc']
      rw [e, ih (c :: cur)]
      simp

theorem dropWhile_isspace_head (l : CppString) :
    l.dropWhile isspace = [] ∨
      ∃ c cs, l.dropWhile isspace = c :: cs ∧ isspace c = false := by
  induction l with
  | nil => exact Or.inl rfl
  | cons c cs ih =>
    by_cases hc : isspace c = true
    · simpa [List.dropWhile, hc] using ih
    · have hc' : isspace c = false := by simpa using hc
      exact Or.inr ⟨c, cs, by simp [List.dropWhile, hc'], hc'⟩

theorem extract_pending (st : istringstream) :
    (st.extract []).2 = (pending st).headD [] ∧
    pending (st.extract []).1 = (pending st).tail := by
  cases hf : st.failbit with
  | true => simp [istringstream.extract, pending, hf]
  | false =>
    have ht : tokens st.buf =
        if (st.buf.dropWhile isspace).takeWhile (fun c => !isspace c) = [] then
          tokensAux ((st.buf.dropWhile isspace).dropWhile (fun c => !isspace c)) []
        else
          (st.buf.dropWhile isspace).takeWhile (fun c => !isspace c) ::
            tokensAux ((st.buf.dropWhile isspace).dropWhile (fun c => !isspace c)) [] := by
      rw [tokens, tokensAux_skip, tokensAux_word]
      simp
    rcases dropWhile_isspace_head st.buf with h0 | ⟨c, cs, h1, hc⟩
    · rw [h0] at ht
      simp [istringstream.extract, pending, hf, h0, ht, tokensAux]
    · rw [h1] at ht
      have h2 : List.takeWhile (fun c => !isspace c) (c :: cs) =
          c :: List.takeWhile (fun c => !isspace c) cs := by
        simp [List.takeWhile, hc]
      rw [h2] at ht
      simp only [List.cons_ne_nil, if_false] at ht
      simp [istringstream.extract, pending, hf, h1, h2, ht]
      rfl

theorem parseRequestLine_tokens (line : CppString) :
    (parseRequestLine line).method = (tokens line).getD 0 [] ∧
    (parseRequestLine line).path = (tokens line).getD 1 [] ∧
    (parseRequestLine line).protocol = (tokens line).getD 2 [] := by
  have h0 : pending ⟨line, false⟩ = tokens line := by simp [pending]
  obtain ⟨a1, b1⟩ := extract_pending ⟨line, false⟩
  obtain ⟨a2, b2⟩ := extract_pending ((⟨line, false⟩ : istringstream).extract []).1
  obtain ⟨a3, _⟩ := extract_pending
    (((⟨line, false⟩ : istringstream).extract []).1.extract []).1
  rw [b2, b1, h0] at a3
  rw [b1, h0] at a2
  rw [h0] at a1
  refine ⟨?_, ?_, ?_⟩
  · show ((⟨line, false⟩ : istringstream).extract []).2 = _
    rw [a1]
    cases tokens line <;> rfl
  · show (((⟨line, false⟩ : istringstream).extract []).1.extract []).2 = _
    rw [a2]
    rcases tokens line with _ | ⟨x, _ | ⟨y, l⟩⟩ <;> rfl
  · show ((((⟨line, false⟩ : istringstream).extract []).1.extract []).1.extract []).2 = _
    rw [a3]
    rcases tokens line with _ | ⟨x, _ | ⟨y, _ | ⟨z, l⟩⟩⟩ <;> rfl

theorem getD_of_length_lt_two (l : List CppString) (h : l.length < 2) :
    l.getD 1 [] = [] ∧ l.getD 2 [] = [] := by
  rcases l with _ | ⟨x, _ | ⟨y, l⟩⟩
  · exact ⟨rfl, rfl⟩
  · exact ⟨rfl, rfl⟩
  · simp only [List.length_cons] at h
    omega

theorem getD_of_length_eq_two (l : List CppString) (h : l.length = 2) :
    l.getD 2 [] = [] := by
  rcases l with _ | ⟨x, _ | ⟨y, _ | ⟨z, l⟩⟩⟩
  · rfl
  · rfl
  · rfl
  · simp only [List.length_cons] at h
    omega

theorem loopBody_path_only (led : LedController) (s : Int) (io : Conn)
    (line line' : CppString) (hr : io.request_line = some line)
    (hp : (parseRequestLine line').path = (parseRequestLine line).path) :
    loopBody led s { io with request_line := some line' } = loopBody led s io := by
  simp only [loopBody, hr, hp, respond]

/-- Claim C9 fails as stated.  The request line `GET /send?message=on`
(closed by `\r\n`) has two whitespace-separated tokens, and its protocol field
parses as the empty string; yet, served from `button_pressed = 0` with
nothing failing, it is treated as the `on` command: `button_pressed` becomes 1,
the value driven is 1, and the reply is the text/plain response with body
`button_pressed=1`, which is not the HTML page. -/
theorem C9_two_token_command_counterexample :
    (tokens "GET /send?message=on\r\n".toList).length = 2 ∧
    (parseRequestLine "GET /send?message=on\r\n".toList).protocol = [] ∧
    loopBody (acquired 0 1) 0 (Conn.ok "GET /send?message=on\r\n".toList) =
      ⟨1, [.accept, .read_, .send_ (plainResponse "button_pressed=1".toList),
        .gpiod_line_set_value (some 1) 1], false⟩ ∧
    plainResponse "button_pressed=1".toList ≠ html_response :=
  ⟨by decide, by decide, by rfl, plainResponse_ne_html _⟩

/-- Claim C9, amended.  The three fields of every request line are its first
three whitespace-separated tokens, a missing one parsing as the empty string.
On a pass on which the accept, the read and the write succeed: a line with
fewer than two tokens (no path) has an empty path and protocol and is not a
command, the HTML page is sent and `button_pressed` is unchanged; a line with
exactly two tokens has an empty protocol, and every line is dispatched on its
path token alone, the pass being the same for any other line with that
path. -/
theorem C9_missing_tokens_amended (led : LedController) (s : Int) (io : Conn)
    (line : CppString)
    (ha : io.accept_ok = true) (hr : io.request_line = some line)
    (hw : io.write_ok = true) :
    (parseRequestLine line).method = (tokens line).getD 0 [] ∧
    (parseRequestLine line).path = (tokens line).getD 1 [] ∧
    (parseRequestLine line).protocol = (tokens line).getD 2 [] ∧
    ((tokens line).length < 2 →
      (parseRequestLine line).path = [] ∧ (parseRequestLine line).protocol = [] ∧
      (loopBody led s io).button_pressed = s ∧
      (loopBody led s io).trace =
        [.accept, .read_, .send_ html_response, .gpiod_line_set_value led.line_ s]) ∧
    ((tokens line).length = 2 → (parseRequestLine line).protocol = []) ∧
    (∀ line' : CppString, (parseRequestLine line').path = (parseRequestLine line).path →
      loopBody led s { io with request_line := some line' } = loopBody led s io) := by
  obtain ⟨hm, hp, hq⟩ := parseRequestLine_tokens line
  refine ⟨hm, hp, hq, ?_, ?_, fun line' h => loopBody_path_only led s io line line' hr h⟩
  · intro hlen
    obtain ⟨g1, g2⟩ := getD_of_length_lt_two (tokens line) hlen
    have hp0 : (parseRequestLine line).path = [] := by rw [hp, g1]
    have hq0 : (parseRequestLine line).protocol = [] := by rw [hq, g2]
    have hnp : ¬ sendMessageLit <+: (parseRequestLine line).path := by
      rw [hp0]
      decide
    rw [loopBody_page led s io line ha hr hnp, respond_written _ _ _ _ _ hw]
    exact ⟨hp0, hq0, rfl, rfl⟩
  · intro hlen
    rw [hq, getD_of_length_eq_two (tokens line) hlen]

/-- Claim C9 amended, at the one-token request line `GET` served from
`button_pressed = 1`. -/
theorem C9_missing_tokens_amended_witness :
    (tokens "GET\r\n".toList).length < 2 ∧
    (parseRequestLine "GET\r\n".toList).path = [] ∧
    (parseRequestLine "GET\r\n".toList).protocol = [] ∧
    (loopBody (acquired 0 1) 1 (Conn.ok "GET\r\n".toList)).button_pressed = 1 ∧
    (loopBody (acquired 0 1) 1 (Conn.ok "GET\r\n".toList)).trace =
      [.accept, .read_, .send_ html_response,
        .gpiod_line_set_value (acquired 0 1).line_ 1] :=
  ⟨by decide,
    (C9_missing_tokens_amended (acquired 0 1) 1 (Conn.ok "GET\r\n".toList) "GET\r\n".toList
      rfl rfl rfl).2.2.2.1 (by decide)⟩

end WebServerControlLed
